import Mathlib

/-!
Verification of the gcs-download-demo repository (src/app/page.tsx).

The file contains two components:
* the signed-URL issuance route handler `GET` (server side), and
* the gallery client (`fetchSignedUrl`, the thumbnail-loading effect,
  `navigateCarousel`, `handleImageSelect`).

We shallowly embed both.  Environment variables are modelled as strings
where the empty string stands for an unset variable (JavaScript treats
both `undefined` and `""` as falsy in the `!process.env.X` checks).
Query parameters are `Option String` (`searchParams.get` returns `null`
or a string).  Object-store behaviour (`file.exists`, `file.getSignedUrl`),
the dynamic import and client construction are effects of the outside
world; they are parameters of the model, packaged in `Store`.
-/

/-- JavaScript truthiness of a nullable string: `null` and `""` are falsy. -/
def truthy : Option String → Bool
  | none => false
  | some s => s ≠ ""

/-- a value thrown by JavaScript code: either an `Error` instance carrying a
message and an optional stack, or some non-`Error` value. -/
inductive Thrown where
  | err (message : String) (stack : Option String)
  | nonErr
deriving DecidableEq

/-- the `e instanceof Error ? e.message : default` idiom. -/
def Thrown.messageOr (t : Thrown) (dflt : String) : String :=
  match t with
  | .err m _ => m
  | .nonErr => dflt

/-- the `e instanceof Error ? e.stack : undefined` idiom. -/
def Thrown.stackOf : Thrown → Option String
  | .err _ s => s
  | .nonErr => none

/-- server environment variables (page.tsx lines 292-312, 351-357, 408);
`""` means the variable is unset. -/
structure Env where
  projectId : String
  bucketName : String
  keyFile : String
  credentials : String
  cdnEndpoint : String
deriving DecidableEq

/-- query parameters of a request to `/api/signed-url`
(page.tsx lines 315-318). -/
structure Req where
  directory : Option String
  filename : Option String
  original : Option String
deriving DecidableEq

/-- a parsed URL, as produced by `new URL(signedUrl)` (page.tsx line 414):
origin (scheme plus host), pathname, and search (query string). -/
structure Url where
  origin : String
  pathname : String
  search : String
deriving DecidableEq

/-- serialisation of a URL back to a string. -/
def Url.toString (u : Url) : String := u.origin ++ u.pathname ++ u.search

/-- the options object passed to `file.getSignedUrl` (page.tsx lines 398-402). -/
structure SignOptions where
  version : String
  action : String
  expires : Nat
deriving DecidableEq

/-- behaviour of the outside world during one request: whether the
dynamic import of `@google-cloud/storage` succeeds (lines 334-341), whether
`new Storage(config)` succeeds (lines 346-374), whether `JSON.parse`
succeeds on a given credentials string (line 357), and the results of the
two store operations `file.exists` (line 388) and `file.getSignedUrl`
(line 404), each of which may throw. -/
structure Store where
  importOk : Bool
  initResult : Except Thrown Unit
  parseOk : String → Bool
  fileExists : String → String → Except Thrown Bool
  getSignedUrl : String → String → SignOptions → Except Thrown Url

/-- a JSON response body: success `{signedUrl}` or failure `{error, details?}`. -/
inductive Body where
  | success (signedUrl : String)
  | failure (error : String) (details : Option String)
deriving DecidableEq

/-- whether a body is the success shape `{signedUrl}`. -/
def Body.isSuccess : Body → Bool
  | .success _ => true
  | .failure _ _ => false

/-- an HTTP response of the route handler: status plus JSON body. -/
structure Resp where
  status : Nat
  body : Body
deriving DecidableEq

/-- an observable contact with the object store made by the handler. -/
inductive Call where
  | existsCheck (bucket path : String)
  | sign (bucket path : String) (opts : SignOptions)
deriving DecidableEq

/-- whether a store call is a signing call. -/
def Call.isSign : Call → Bool
  | .sign _ _ _ => true
  | .existsCheck _ _ => false

/-- the object key computed by the handler (page.tsx lines 377-378):
`directory + "/" + (original === "true" ? "original" : "optimized") + "/" + filename`. -/
def computedKey (req : Req) : String :=
  req.directory.getD "" ++ "/" ++
    (if req.original = some "true" then "original" else "optimized") ++ "/" ++
    req.filename.getD ""

/-- the route handler `GET` (page.tsx lines 285-444), returning the HTTP
response together with the trace of object-store contacts it made, in
order.  Branches appear in source order: the three configuration checks,
parameter validation, the import of the storage package, credentials
parsing, client construction, the existence check, signing, and the
optional CDN rewrite. -/
def GETrun (env : Env) (store : Store) (now : Nat) (req : Req) : Resp × List Call :=
  if env.projectId = "" then
    (⟨500, Body.failure "Google Cloud project ID not configured" none⟩, [])
  else if env.bucketName = "" then
    (⟨500, Body.failure "Google Cloud Storage bucket name not configured" none⟩, [])
  else if env.keyFile = "" ∧ env.credentials = "" then
    (⟨500, Body.failure "Google Cloud credentials not configured" none⟩, [])
  else if truthy req.directory = false ∨ truthy req.filename = false then
    (⟨400, Body.failure "Missing required parameters: directory and filename" none⟩, [])
  else if store.importOk = false then
    (⟨500, Body.failure "Google Cloud Storage package not available" none⟩, [])
  else if env.keyFile = "" ∧ env.credentials ≠ "" ∧ store.parseOk env.credentials = false then
    (⟨500, Body.failure "Invalid Google Cloud credentials format" none⟩, [])
  else
    match store.initResult with
    | Except.error t =>
        (⟨500, Body.failure
            ("Failed to initialize Google Cloud Storage: " ++ t.messageOr "Unknown error")
            none⟩, [])
    | Except.ok _ =>
        match store.fileExists env.bucketName (computedKey req) with
        | Except.error t =>
            (⟨500, Body.failure
                ("Storage operation failed: " ++ t.messageOr "Unknown storage error")
                t.stackOf⟩,
             [Call.existsCheck env.bucketName (computedKey req)])
        | Except.ok false =>
            (⟨404, Body.failure ("File not found: " ++ computedKey req) none⟩,
             [Call.existsCheck env.bucketName (computedKey req)])
        | Except.ok true =>
            match store.getSignedUrl env.bucketName (computedKey req)
                ⟨"v4", "read", now + 60 * 60 * 1000⟩ with
            | Except.error t =>
                (⟨500, Body.failure
                    ("Storage operation failed: " ++ t.messageOr "Unknown storage error")
                    t.stackOf⟩,
                 [Call.existsCheck env.bucketName (computedKey req),
                  Call.sign env.bucketName (computedKey req) ⟨"v4", "read", now + 60 * 60 * 1000⟩])
            | Except.ok url =>
                (⟨200, Body.success
                    (if env.cdnEndpoint ≠ "" then env.cdnEndpoint ++ url.pathname ++ url.search
                     else Url.toString url)⟩,
                 [Call.existsCheck env.bucketName (computedKey req),
                  Call.sign env.bucketName (computedKey req) ⟨"v4", "read", now + 60 * 60 * 1000⟩])

/-- all three required configuration values are present (lines 299-312 pass). -/
def configOk (env : Env) : Prop :=
  env.projectId ≠ "" ∧ env.bucketName ≠ "" ∧ ¬(env.keyFile = "" ∧ env.credentials = "")

/-- some required configuration value is missing (one of lines 299-312 fires). -/
def configMissing (env : Env) : Prop :=
  env.projectId = "" ∨ env.bucketName = "" ∨ (env.keyFile = "" ∧ env.credentials = "")

instance (env : Env) : Decidable (configOk env) := by unfold configOk; infer_instance

instance (env : Env) : Decidable (configMissing env) := by unfold configMissing; infer_instance

/-- a fully healthy deployment environment for witnesses: key-file
authentication, no CDN. -/
def envW : Env := ⟨"proj", "bucket", "key.json", "", ""⟩

/-- a request for the thumbnail of image1.jpg in directory gallery. -/
def reqW : Req := ⟨some "gallery", some "image1.jpg", none⟩

/-- a store in which every object exists and signing succeeds. -/
def storeW : Store :=
  ⟨true, Except.ok (), fun _ => true, fun _ _ => Except.ok true,
   fun _ _ _ => Except.ok ⟨"https://storage.googleapis.com",
     "/bucket/gallery/optimized/image1.jpg", "?X-Goog-Signature=abc"⟩⟩

/-- C1: with the required configuration present, any request whose directory
or filename parameter is absent or empty receives status 400 with an error
body, whatever the other request parameters and the store's behaviour. -/
theorem missing_params_yield_400 (env : Env) (store : Store) (now : Nat) (req : Req)
    (hc : configOk env)
    (hp : truthy req.directory = false ∨ truthy req.filename = false) :
    GETrun env store now req
      = (⟨400, Body.failure "Missing required parameters: directory and filename" none⟩, []) := by
  obtain ⟨h1, h2, h3⟩ := hc
  unfold GETrun
  rw [if_neg h1, if_neg h2, if_neg h3, if_pos hp]

/-- C1 witness: a configured environment and a request with an empty filename
gets the 400 response. -/
theorem missing_params_yield_400_witness :
    configOk envW ∧ (truthy (Req.mk (some "gallery") (some "") none).directory = false
      ∨ truthy (Req.mk (some "gallery") (some "") none).filename = false) ∧
    GETrun envW storeW 0 (Req.mk (some "gallery") (some "") none)
      = (⟨400, Body.failure "Missing required parameters: directory and filename" none⟩, []) :=
  ⟨by decide, Or.inr (by decide),
   missing_params_yield_400 envW storeW 0 (Req.mk (some "gallery") (some "") none)
     (by decide) (Or.inr (by decide))⟩

/-- C6: when a required configuration value is missing, the handler answers
500 with an error body and no details, contacts the store not at all, and
the answer is computed before the request parameters or the store are
looked at: it is the same for every request, every store behaviour and
every clock value. -/
theorem missing_config_fails_fast (env : Env) (store : Store) (now : Nat) (req : Req)
    (h : configMissing env) :
    (GETrun env store now req).1.status = 500
    ∧ (∃ msg, (GETrun env store now req).1.body = Body.failure msg none)
    ∧ (GETrun env store now req).2 = []
    ∧ ∀ (store' : Store) (now' : Nat) (req' : Req),
        GETrun env store' now' req' = GETrun env store now req := by
  rcases h with h1 | h2 | h3
  · unfold GETrun
    rw [if_pos h1]
    exact ⟨rfl, ⟨_, rfl⟩, rfl, fun store' now' req' => by rw [if_pos h1]⟩
  · by_cases h1 : env.projectId = ""
    · unfold GETrun
      rw [if_pos h1]
      exact ⟨rfl, ⟨_, rfl⟩, rfl, fun store' now' req' => by rw [if_pos h1]⟩
    · unfold GETrun
      rw [if_neg h1, if_pos h2]
      exact ⟨rfl, ⟨_, rfl⟩, rfl, fun store' now' req' => by rw [if_neg h1, if_pos h2]⟩
  · by_cases h1 : env.projectId = ""
    · unfold GETrun
      rw [if_pos h1]
      exact ⟨rfl, ⟨_, rfl⟩, rfl, fun store' now' req' => by rw [if_pos h1]⟩
    · by_cases h2 : env.bucketName = ""
      · unfold GETrun
        rw [if_neg h1, if_pos h2]
        exact ⟨rfl, ⟨_, rfl⟩, rfl, fun store' now' req' => by rw [if_neg h1, if_pos h2]⟩
      · unfold GETrun
        rw [if_neg h1, if_neg h2, if_pos h3]
        exact ⟨rfl, ⟨_, rfl⟩, rfl, fun store' now' req' => by rw [if_neg h1, if_neg h2, if_pos h3]⟩

/-- C6 witness: with the bucket name unset, a well-formed request still gets
the fail-fast 500 configuration response. -/
theorem missing_config_fails_fast_witness :
    configMissing (Env.mk "proj" "" "key.json" "" "") ∧
    (GETrun (Env.mk "proj" "" "key.json" "" "") storeW 0 reqW).1.status = 500 ∧
    (GETrun (Env.mk "proj" "" "key.json" "" "") storeW 0 reqW).2 = [] :=
  ⟨by decide,
   (missing_config_fails_fast (Env.mk "proj" "" "key.json" "" "") storeW 0 reqW
     (by decide)).1,
   (missing_config_fails_fast (Env.mk "proj" "" "key.json" "" "") storeW 0 reqW
     (by decide)).2.2.1⟩

/-- hypotheses under which the handler reaches the store: configuration
present, both parameters truthy, the storage package importable, inline
credentials (when used) parseable, and the client constructible. -/
def reachesStore (env : Env) (store : Store) (req : Req) : Prop :=
  configOk env
  ∧ truthy req.directory = true ∧ truthy req.filename = true
  ∧ store.importOk = true
  ∧ (env.keyFile = "" → store.parseOk env.credentials = true)
  ∧ store.initResult = Except.ok ()

/-- under `reachesStore`, `GETrun` reduces to the existence-check branch. -/
theorem GETrun_reaches (env : Env) (store : Store) (now : Nat) (req : Req)
    (h : reachesStore env store req) :
    GETrun env store now req =
      match store.fileExists env.bucketName (computedKey req) with
      | Except.error t =>
          (⟨500, Body.failure
              ("Storage operation failed: " ++ t.messageOr "Unknown storage error")
              t.stackOf⟩,
           [Call.existsCheck env.bucketName (computedKey req)])
      | Except.ok false =>
          (⟨404, Body.failure ("File not found: " ++ computedKey req) none⟩,
           [Call.existsCheck env.bucketName (computedKey req)])
      | Except.ok true =>
          match store.getSignedUrl env.bucketName (computedKey req)
              ⟨"v4", "read", now + 60 * 60 * 1000⟩ with
          | Except.error t =>
              (⟨500, Body.failure
                  ("Storage operation failed: " ++ t.messageOr "Unknown storage error")
                  t.stackOf⟩,
               [Call.existsCheck env.bucketName (computedKey req),
                Call.sign env.bucketName (computedKey req) ⟨"v4", "read", now + 60 * 60 * 1000⟩])
          | Except.ok url =>
              (⟨200, Body.success
                  (if env.cdnEndpoint ≠ "" then env.cdnEndpoint ++ url.pathname ++ url.search
                   else Url.toString url)⟩,
               [Call.existsCheck env.bucketName (computedKey req),
                Call.sign env.bucketName (computedKey req) ⟨"v4", "read", now + 60 * 60 * 1000⟩]) := by
  obtain ⟨⟨h1, h2, h3⟩, hd, hf, him, hparse, hinit⟩ := h
  unfold GETrun
  rw [if_neg h1, if_neg h2, if_neg h3,
    if_neg (by simp [hd, hf]),
    if_neg (by simp [him]),
    if_neg (by rintro ⟨hk, _, hpf⟩; rw [hparse hk] at hpf; exact Bool.noConfusion hpf),
    hinit]

/-- C2: when configuration and parameters are present, the environment is
healthy, and the object at the computed key exists, the handler returns
status 200 with a `{signedUrl}` body; the URL comes from the store's
signing call with version v4, action read, and expiry exactly
`now + 60 * 60 * 1000` milliseconds, i.e. one hour after issuance;
without a CDN endpoint it is returned verbatim. -/
theorem success_returns_v4_url_one_hour (env : Env) (store : Store) (now : Nat) (req : Req)
    (hr : reachesStore env store req)
    (hex : store.fileExists env.bucketName (computedKey req) = Except.ok true)
    (url : Url)
    (hsign : store.getSignedUrl env.bucketName (computedKey req)
        ⟨"v4", "read", now + 60 * 60 * 1000⟩ = Except.ok url) :
    GETrun env store now req =
      (⟨200, Body.success
          (if env.cdnEndpoint ≠ "" then env.cdnEndpoint ++ url.pathname ++ url.search
           else Url.toString url)⟩,
       [Call.existsCheck env.bucketName (computedKey req),
        Call.sign env.bucketName (computedKey req) ⟨"v4", "read", now + 60 * 60 * 1000⟩]) := by
  rw [GETrun_reaches env store now req hr, hex, hsign]

/-- C2 witness: with the witness environment (no CDN) every hypothesis holds
concretely and the response is 200 carrying the store's v4 signed URL. -/
theorem success_returns_v4_url_one_hour_witness :
    reachesStore envW storeW reqW
    ∧ storeW.fileExists envW.bucketName (computedKey reqW) = Except.ok true
    ∧ GETrun envW storeW 0 reqW =
        (⟨200, Body.success (Url.toString ⟨"https://storage.googleapis.com",
            "/bucket/gallery/optimized/image1.jpg", "?X-Goog-Signature=abc"⟩)⟩,
         [Call.existsCheck envW.bucketName (computedKey reqW),
          Call.sign envW.bucketName (computedKey reqW) ⟨"v4", "read", 0 + 60 * 60 * 1000⟩]) :=
  ⟨⟨by decide, rfl, by decide, rfl, fun h => rfl, rfl⟩, rfl, by
    rw [success_returns_v4_url_one_hour envW storeW 0 reqW
      ⟨by decide, rfl, by decide, rfl, fun h => rfl, rfl⟩ rfl
      ⟨"https://storage.googleapis.com", "/bucket/gallery/optimized/image1.jpg",
        "?X-Goog-Signature=abc"⟩ rfl]
    decide⟩

/-- C4: when the existence check reports the object absent, the handler
returns 404 and the error message embeds the computed key in the exact
format directory/subdirectory/filename, the subdirectory being "original"
precisely when the original parameter is the string "true" and "optimized"
otherwise. -/
theorem absent_object_yields_404_with_key (env : Env) (store : Store) (now : Nat) (req : Req)
    (hr : reachesStore env store req)
    (hex : store.fileExists env.bucketName (computedKey req) = Except.ok false) :
    GETrun env store now req =
      (⟨404, Body.failure
          ("File not found: " ++
            (req.directory.getD "" ++ "/" ++
              (if req.original = some "true" then "original" else "optimized") ++ "/" ++
              req.filename.getD ""))
          none⟩,
       [Call.existsCheck env.bucketName (computedKey req)]) := by
  rw [GETrun_reaches env store now req hr, hex]; rfl

/-- a store in which no object exists. -/
def storeAbsent : Store :=
  ⟨true, Except.ok (), fun _ => true, fun _ _ => Except.ok false,
   fun _ _ _ => Except.ok ⟨"https://storage.googleapis.com", "/x", ""⟩⟩

/-- C4 witness: an absent original-resolution object produces the 404 whose
message names gallery/original/image1.jpg. -/
theorem absent_object_yields_404_with_key_witness :
    reachesStore envW storeAbsent (Req.mk (some "gallery") (some "image1.jpg") (some "true"))
    ∧ GETrun envW storeAbsent 0 (Req.mk (some "gallery") (some "image1.jpg") (some "true")) =
        (⟨404, Body.failure "File not found: gallery/original/image1.jpg" none⟩,
         [Call.existsCheck "bucket" "gallery/original/image1.jpg"]) :=
  ⟨⟨by decide, rfl, by decide, rfl, fun h => rfl, rfl⟩, by
    rw [absent_object_yields_404_with_key envW storeAbsent 0
      (Req.mk (some "gallery") (some "image1.jpg") (some "true"))
      ⟨by decide, rfl, by decide, rfl, fun h => rfl, rfl⟩ rfl]
    decide⟩

/-- C5: on the success path, when a CDN endpoint is configured the returned
URL is the CDN endpoint followed by the signed URL's pathname and search
verbatim — byte-identical to the pathname and search of the store's signed
URL, whose serialisation is origin ++ pathname ++ search — and when no CDN
endpoint is configured the store's signed URL is returned unmodified. -/
theorem cdn_rewrite_preserves_path_and_query (env : Env) (store : Store) (now : Nat) (req : Req)
    (hr : reachesStore env store req)
    (hex : store.fileExists env.bucketName (computedKey req) = Except.ok true)
    (url : Url)
    (hsign : store.getSignedUrl env.bucketName (computedKey req)
        ⟨"v4", "read", now + 60 * 60 * 1000⟩ = Except.ok url) :
    (env.cdnEndpoint ≠ "" →
        (GETrun env store now req).1.body
          = Body.success (env.cdnEndpoint ++ url.pathname ++ url.search))
    ∧ (env.cdnEndpoint = "" →
        (GETrun env store now req).1.body
          = Body.success (url.origin ++ url.pathname ++ url.search)) := by
  rw [success_returns_v4_url_one_hour env store now req hr hex url hsign]
  constructor
  · intro h
    simp only [if_pos h]
  · intro h
    rw [if_neg (by simp [h]), Url.toString]

/-- an environment identical to `envW` except that a CDN endpoint is set. -/
def envCdn : Env := ⟨"proj", "bucket", "key.json", "", "https://cdn.example.com"⟩

/-- C5 witness: with the CDN endpoint configured, the success body is the
CDN host followed by the signed URL's pathname and query string verbatim. -/
theorem cdn_rewrite_preserves_path_and_query_witness :
    envCdn.cdnEndpoint ≠ "" ∧
    (GETrun envCdn storeW 0 reqW).1.body
      = Body.success
          "https://cdn.example.com/bucket/gallery/optimized/image1.jpg?X-Goog-Signature=abc" := by
  refine ⟨by decide, ?_⟩
  rw [(cdn_rewrite_preserves_path_and_query envCdn storeW 0 reqW
    ⟨by decide, rfl, by decide, rfl, fun h => rfl, rfl⟩ rfl
    ⟨"https://storage.googleapis.com", "/bucket/gallery/optimized/image1.jpg",
      "?X-Goog-Signature=abc"⟩ rfl).1 (by decide)]
  decide

/-- C3: a signing call appears in the trace only when the existence check on
the computed key answered true, and then the trace is exactly the
existence check followed by the signing call; every success response
implies the existence check answered true; and when the existence check
answers false no signing call is made. -/
theorem signing_requires_existence (env : Env) (store : Store) (now : Nat) (req : Req) :
    ((GETrun env store now req).2.any Call.isSign = true →
        store.fileExists env.bucketName (computedKey req) = Except.ok true
      ∧ (GETrun env store now req).2
          = [Call.existsCheck env.bucketName (computedKey req),
             Call.sign env.bucketName (computedKey req) ⟨"v4", "read", now + 60 * 60 * 1000⟩])
    ∧ ((GETrun env store now req).1.body.isSuccess = true →
        store.fileExists env.bucketName (computedKey req) = Except.ok true)
    ∧ (store.fileExists env.bucketName (computedKey req) = Except.ok false →
        (GETrun env store now req).2.any Call.isSign = false) := by
  unfold GETrun
  repeat' split
  all_goals simp_all [Call.isSign, Body.isSuccess]

/-- C3 witness: in the witness run the signing call does occur, and the
theorem yields the confirmed existence and the exact two-call trace. -/
theorem signing_requires_existence_witness :
    (GETrun envW storeW 0 reqW).2.any Call.isSign = true
    ∧ storeW.fileExists envW.bucketName (computedKey reqW) = Except.ok true
    ∧ (GETrun envW storeW 0 reqW).2
        = [Call.existsCheck envW.bucketName (computedKey reqW),
           Call.sign envW.bucketName (computedKey reqW) ⟨"v4", "read", 0 + 60 * 60 * 1000⟩] :=
  ⟨by decide,
   ((signing_requires_existence envW storeW 0 reqW).1 (by decide)).1,
   ((signing_requires_existence envW storeW 0 reqW).1 (by decide)).2⟩

/-- C10: whenever the handler reaches the store, the first store contact
checks exactly the key directory/subdirectory/filename where the
subdirectory is "original" precisely when the original parameter equals
the string "true"; for every other value of the parameter the key uses
"optimized". -/
theorem original_param_exact (env : Env) (store : Store) (now : Nat) (req : Req)
    (hr : reachesStore env store req) :
    ((GETrun env store now req).2.head? =
      some (Call.existsCheck env.bucketName
        (req.directory.getD "" ++ "/" ++
          (if req.original = some "true" then "original" else "optimized") ++ "/" ++
          req.filename.getD "")))
    ∧ (req.original ≠ some "true" →
        (GETrun env store now req).2.head? =
          some (Call.existsCheck env.bucketName
            (req.directory.getD "" ++ "/" ++ "optimized" ++ "/" ++ req.filename.getD ""))) := by
  have hg := GETrun_reaches env store now req hr
  constructor
  · rw [hg]
    split
    · rfl
    · rfl
    · split
      · rfl
      · rfl
  · intro h
    have hk : computedKey req
        = req.directory.getD "" ++ "/" ++ "optimized" ++ "/" ++ req.filename.getD "" := by
      unfold computedKey
      rw [if_neg h]
    rw [hg, hk]
    split
    · rfl
    · rfl
    · split
      · rfl
      · rfl

/-- C10 witness: the value "TRUE" is not accepted; the request resolves
under the optimized subdirectory. -/
theorem original_param_exact_witness :
    (some "TRUE" : Option String) ≠ some "true" ∧
    (GETrun envW storeW 0 (Req.mk (some "gallery") (some "image1.jpg") (some "TRUE"))).2.head? =
      some (Call.existsCheck "bucket" "gallery/optimized/image1.jpg") := by
  refine ⟨by decide, ?_⟩
  rw [(original_param_exact envW storeW 0
    (Req.mk (some "gallery") (some "image1.jpg") (some "TRUE"))
    ⟨by decide, rfl, by decide, rfl, fun h => rfl, rfl⟩).2 (by decide)]
  decide

/-!
Client model (page.tsx lines 10-142).  React state is a record; `useState`
setters become functional updates.  The crucial semantic point for the
thumbnail loop (lines 93-114) is that the effect's closure captures the
`error` binding of the render in which the effect was created (the mount
render, where `error` is `null`), and `setError` never mutates that
captured binding — it only schedules a re-render with a fresh binding.
The `if (error) break` on line 105 therefore always reads the captured
value, which we pass in explicitly as `closureError`.
-/

/-- the hardcoded image list (page.tsx line 11). -/
def IMAGE_FILENAMES : List String :=
  ["image1.jpg", "image2.jpg", "image3.jpg", "image4.jpg", "image5.jpg"]

/-- the hardcoded directory name (page.tsx line 13). -/
def DIRECTORY_NAME : String := "gallery"

/-- the shape of the JSON body the client reads (page.tsx lines 15-19);
absent fields are `none` / `""`. -/
structure SignedUrlResponse where
  signedUrl : String
  error : Option String
  details : Option String
deriving DecidableEq

/-- how one `fetch` of `/api/signed-url` turns out, as the client observes it
(page.tsx lines 39-72): the network call may reject; the response may be
non-ok, with a body text that may or may not parse as JSON; an ok response
may lack a JSON content type; its body may fail to parse; or it parses. -/
inductive FetchOutcome where
  | netError (t : Thrown)
  | httpError (status : Nat) (errorText : String) (parsed : Option SignedUrlResponse)
  | nonJson (text : String)
  | badJson (t : Thrown)
  | parsed (data : SignedUrlResponse)
deriving DecidableEq

/-- the component state of `PhotoGallery` (page.tsx lines 22-29). -/
structure ClientState where
  selectedImage : String
  currentIndex : Int
  optimizedUrls : List (String × String)
  originalUrl : String
  loading : Bool
  originalLoading : Bool
  error : Option String
  errorDetails : Option String
deriving DecidableEq

/-- the initial component state (page.tsx lines 22-29): first image
selected, index 0, no URLs, loading true, no error. -/
def initialState : ClientState :=
  ⟨IMAGE_FILENAMES.getD 0 "", 0, [], "", true, false, none, none⟩

/-- `fetchSignedUrl` (page.tsx lines 32-90): clears the error state, then
per outcome either records an error and returns `""`, or returns the
signed URL.  For a non-ok response whose body parses as JSON, the message
is `errorJson.error || "Server error: <status>"` and details are set only
when present; for an unparseable body it is
`"Server error: <status> - <text>"`; a missing JSON content type gives
`"Invalid server response format"`; a rejection is reported with the
thrown message or `"Unknown error occurred"`; a parsed body carrying a
truthy `error` field is surfaced verbatim with its optional details. -/
def fetchSignedUrl (outcome : FetchOutcome) (st : ClientState) : String × ClientState :=
  let st0 := { st with error := none, errorDetails := none }
  match outcome with
  | .httpError status errorText parsedBody =>
      match parsedBody with
      | some j =>
          let st1 := { st0 with
            error := some (if truthy j.error then j.error.getD "" else
              "Server error: " ++ toString status) }
          let st2 := if truthy j.details then { st1 with errorDetails := j.details } else st1
          ("", st2)
      | none =>
          ("", { st0 with
            error := some ("Server error: " ++ toString status ++ " - " ++ errorText) })
  | .nonJson _ => ("", { st0 with error := some "Invalid server response format" })
  | .badJson t => ("", { st0 with error := some (t.messageOr "Unknown error occurred") })
  | .parsed data =>
      if truthy data.error then
        let st1 := { st0 with error := data.error }
        let st2 := if truthy data.details then { st1 with errorDetails := data.details } else st1
        ("", st2)
      else (data.signedUrl, st0)
  | .netError t => ("", { st0 with error := some (t.messageOr "Unknown error occurred") })

/-- the body of the `for` loop in `loadOptimizedImages` (page.tsx lines
99-106), threading the component state, the `urls` accumulator and the
count of fetches issued.  `closureError` is the stale captured `error`
binding read by `if (error) break`; it never changes during the loop. -/
def loadLoop (fetchFor : String → FetchOutcome) (closureError : Option String) :
    List String → ClientState → List (String × String) → Nat →
      ClientState × List (String × String) × Nat
  | [], st, urls, count => (st, urls, count)
  | f :: rest, st, urls, count =>
      let r := fetchSignedUrl (fetchFor f) st
      let urls' := if r.1 ≠ "" then urls ++ [(f, r.1)] else urls
      if truthy closureError = true then (r.2, urls', count + 1)
      else loadLoop fetchFor closureError rest r.2 urls' (count + 1)

/-- `loadOptimizedImages` (page.tsx lines 94-111): sets loading, runs the
loop over `IMAGE_FILENAMES` with the stale captured error (the state's
error at effect creation), then stores the collected URLs and clears
loading.  Returns the final state and the number of fetches issued. -/
def loadOptimizedImages (fetchFor : String → FetchOutcome) (st : ClientState) :
    ClientState × Nat :=
  let st1 := { st with loading := true }
  match loadLoop fetchFor st.error IMAGE_FILENAMES st1 [] 0 with
  | (st2, urls, count) => ({ st2 with optimizedUrls := urls, loading := false }, count)

/-- `handleImageSelect` (page.tsx lines 130-133). -/
def handleImageSelect (filename : String) (index : Int) (st : ClientState) : ClientState :=
  { st with selectedImage := filename, currentIndex := index }

/-- `navigateCarousel` (page.tsx lines 135-142): previous is
`(i - 1 + N) % N`, next is `(i + 1) % N`, then the image at the new index
is selected.  Indices are integers as in JavaScript; `%` on the
non-negative dividends arising here agrees with JavaScript's remainder. -/
def navigateCarousel (direction : String) (st : ClientState) : ClientState :=
  let n : Int := (IMAGE_FILENAMES.length : Int)
  let newIndex : Int :=
    if direction = "prev" then (st.currentIndex - 1 + n) % n
    else (st.currentIndex + 1) % n
  handleImageSelect (IMAGE_FILENAMES.getD newIndex.toNat "") newIndex st

/-- C7: for every in-range index i, navigating next sets the index to
(i + 1) mod N and previous to (i - 1 + N) mod N over the fixed list of
length N = 5; in particular next from the last index wraps to 0 and
previous from 0 wraps to the last index, selecting the matching image. -/
theorem navigateCarousel_wraparound (st : ClientState) (i : Int)
    (h0 : 0 ≤ i) (h1 : i < (IMAGE_FILENAMES.length : Int)) :
    (navigateCarousel "next" { st with currentIndex := i }).currentIndex
        = (i + 1) % (IMAGE_FILENAMES.length : Int)
    ∧ (navigateCarousel "prev" { st with currentIndex := i }).currentIndex
        = (i - 1 + (IMAGE_FILENAMES.length : Int)) % (IMAGE_FILENAMES.length : Int)
    ∧ (navigateCarousel "next"
        { st with currentIndex := (IMAGE_FILENAMES.length : Int) - 1 }).currentIndex = 0
    ∧ (navigateCarousel "prev" { st with currentIndex := 0 }).currentIndex
        = (IMAGE_FILENAMES.length : Int) - 1
    ∧ (navigateCarousel "next"
          { st with currentIndex := (IMAGE_FILENAMES.length : Int) - 1 }).selectedImage
        = IMAGE_FILENAMES.getD 0 ""
    ∧ (navigateCarousel "prev" { st with currentIndex := 0 }).selectedImage
        = IMAGE_FILENAMES.getD (IMAGE_FILENAMES.length - 1) "" := by
  refine ⟨rfl, rfl, rfl, rfl, rfl, rfl⟩

/-- C7 witness: the wraparound facts instantiated at index 2 of the initial
state. -/
theorem navigateCarousel_wraparound_witness :
    (0 : Int) ≤ 2 ∧ (2 : Int) < (IMAGE_FILENAMES.length : Int) ∧
    (navigateCarousel "next" { initialState with currentIndex := 2 }).currentIndex
      = (2 + 1) % (IMAGE_FILENAMES.length : Int) :=
  ⟨by decide, by decide,
   (navigateCarousel_wraparound initialState 2 (by decide) (by decide)).1⟩

/-- a world in which every thumbnail fetch fails with HTTP 500 and a
non-JSON body, so the very first fetch (k = 1) already fails. -/
def allFailWorld : String → FetchOutcome :=
  fun _ => FetchOutcome.httpError 500 "boom" none

/-- C8: evaluation at the failing input.  With every fetch failing, the
first fetch (k = 1) fails — it returns `""` and records an error — yet the
loop issues all 5 requests instead of halting after 1: the
`if (error) break` check reads the stale closure-captured `error`, which
stays `null`, so the claimed halt never happens. -/
theorem thumbnail_loop_never_halts_on_failure :
    (fetchSignedUrl (allFailWorld "image1.jpg") initialState).1 = ""
    ∧ (fetchSignedUrl (allFailWorld "image1.jpg") initialState).2.error
        = some "Server error: 500 - boom"
    ∧ (loadOptimizedImages allFailWorld initialState).2 = 5
    ∧ IMAGE_FILENAMES.length = 5
    ∧ (loadOptimizedImages allFailWorld initialState).1.optimizedUrls = [] := by
  decide

/-- a world in which every thumbnail fetch fails, each with a message naming
its own file, so successive errors are distinguishable. -/
def eachFailWorld : String → FetchOutcome :=
  fun f => FetchOutcome.httpError 500 ("fail " ++ f) none

/-- C9: evaluation at the failing input.  With all five fetches failing with
distinct messages, the error left in the state after the loop — the one
the UI displays — is that of the fifth (last) fetch, not of the first:
each call to `fetchSignedUrl` clears the error state before storing its
own, and the loop runs past failures (stale closure), so later errors
overwrite earlier ones. -/
theorem displayed_error_is_last_not_first :
    (fetchSignedUrl (eachFailWorld "image1.jpg") initialState).2.error
        = some "Server error: 500 - fail image1.jpg"
    ∧ (loadOptimizedImages eachFailWorld initialState).1.error
        = some "Server error: 500 - fail image5.jpg"
    ∧ some "Server error: 500 - fail image5.jpg"
        ≠ some "Server error: 500 - fail image1.jpg" := by
  decide
